import Mathlib

/-!
Verification of the `ibt-exporter` program (`src/main.py`): a BLE dual-probe
thermometer bridge that decodes 4-byte temperature notifications and publishes
them through a Prometheus-style metrics registry.

The embedding below translates the Python source into Lean:
bytes are natural numbers `< 256` in lists, Python's `int.from_bytes(·, 'little')`
is `intFromBytesLE`, numeric results are rationals (Python's `/` on these small
integers is modelled exactly), the Prometheus registry is an explicit record of
gauge state threaded through the handler, and the supervisor loop in `main` is a
state machine stepped by the outcomes of its awaited BLE operations.
-/

namespace IbtExporter

/-- Python's `int.from_bytes(data, byteorder='little')` on a list of bytes.
Total over any length; the empty sequence yields `0`. -/
def intFromBytesLE : List ℕ → ℕ
  | [] => 0
  | b :: rest => b + 256 * intFromBytesLE rest

/-- `bytes_to_temperature` from `src/main.py` (lines 34-40):
`raw = int.from_bytes(data, 'little'); if raw == 0xffff: return 0; return raw / 10`. -/
def bytes_to_temperature (data : List ℕ) : ℚ :=
  let raw := intFromBytesLE data
  if raw = 0xffff then 0 else (raw : ℚ) / 10

/-- Python slice `data[lo:hi]`: total, truncating silently when the list is short. -/
def pySlice (data : List ℕ) (lo hi : ℕ) : List ℕ :=
  (data.take hi).drop lo

/-- The process-wide metrics state of `src/main.py`: the labelled gauge
`ibt_temperature_celsius` (one child per label string, absent until first set)
and the plain gauge `ibt_last_received_timestamp_seconds` (absent until first
set; wall-clock time is modelled as a natural number passed in explicitly). -/
structure Registry where
  temperature : String → Option ℚ
  last_received : Option ℕ

/-- `temperature.labels(name=label).set(v)`: upsert one gauge child. -/
def gaugeSet (g : String → Option ℚ) (label : String) (v : ℚ) : String → Option ℚ :=
  fun l => if l = label then some v else g l

/-- `data_notify_handler` from `src/main.py` (lines 43-54): slice the payload
into `data[0:2]` and `data[2:4]`, decode each, set the probe-1 gauge child, then
the probe-2 gauge child, then `last_received.set_to_current_time()`.
The source performs no length check and no operation that can raise: Python
slicing truncates and `int.from_bytes` accepts any length, so the function is
total over payloads of every length. -/
def data_notify_handler (probe1 probe2 : String) (data : List ℕ) (now : ℕ)
    (reg : Registry) : Registry :=
  let temp1 := bytes_to_temperature (pySlice data 0 2)
  let temp2 := bytes_to_temperature (pySlice data 2 4)
  { temperature := gaugeSet (gaugeSet reg.temperature probe1 temp1) probe2 temp2
    last_received := some now }

/-- Effect-instrumented form of `bytes_to_temperature`: the module-level mutable
state visible to the function is the metrics `Registry`, and the source body
(lines 34-40) reads only its argument and never touches that state, so its
instrumented embedding returns the pure result and the state unchanged. -/
def bytes_to_temperature_eff (reg : Registry) (data : List ℕ) : ℚ × Registry :=
  (bytes_to_temperature data, reg)

/-- `settings_characteristic` from `src/main.py` line 31. -/
def settings_characteristic : String := "0000fff5-0000-1000-8000-00805f9b34fb"

/-- `data_characteristic` from `src/main.py` line 30. -/
def data_characteristic : String := "0000fff4-0000-1000-8000-00805f9b34fb"

/-- `use_celsius = bytearray([0x02, 0x00, 0x00, 0x00, 0x00, 0x00])` (line 103). -/
def use_celsius : List ℕ := [0x02, 0x00, 0x00, 0x00, 0x00, 0x00]

/-- `enable_realtime = bytearray([0x0B, 0x01, 0x00, 0x00, 0x00, 0x00])` (line 104). -/
def enable_realtime : List ℕ := [0x0B, 0x01, 0x00, 0x00, 0x00, 0x00]

/-- A GATT action performed by the connected-session body of `main`. -/
inductive GattAction
  | write : String → List ℕ → GattAction
  | startNotify : String → GattAction
  | stopNotify : String → GattAction
deriving DecidableEq

/-- The ordered GATT actions the session body of `main` performs before entering
the streaming poll loop (`src/main.py` lines 103-110): write `use_celsius` to the
settings characteristic, write `enable_realtime` to the settings characteristic,
then register the notification handler on the data characteristic. -/
def sessionSetupActions : List GattAction :=
  [ .write settings_characteristic use_celsius
  , .write settings_characteristic enable_realtime
  , .startNotify data_characteristic ]

/-- The frames written to one characteristic, in order, within a trace. -/
def writesTo (uuid : String) (tr : List GattAction) : List (List ℕ) :=
  tr.filterMap fun a =>
    match a with
    | .write u f => if u = uuid then some f else none
    | _ => none

/-- The control state of the supervisor loop in `main` (`src/main.py` lines
78-123). `discovering`, `connecting`, `configuring`, `subscribing` and
`streaming` are the successive phases of the `try` body; `retryWait` is the
`except Exception` branch (the spec's Disconnected/Failed: log, sleep 5 seconds,
loop back to discovering). `halted` does not occur in the source — it is added
to the state space precisely so that "the loop never terminates" is statable,
and the step function never produces it from a live state. -/
inductive SupState
  | discovering
  | connecting
  | configuring
  | subscribing
  | streaming
  | retryWait
  | halted
deriving DecidableEq

/-- The outcome of one awaited BLE operation of the current phase: `ok` means it
returned normally; `err` means it raised an `Exception` (scan/resolve failure,
connect failure, write failure, subscribe failure, or the liveness poll finding
`client.is_connected` false, which the code converts into
`raise Exception("Disconnected")`). -/
inductive StepResult
  | ok
  | err
deriving DecidableEq

/-- One transition of the supervisor loop of `main`: each phase advances on
`ok`; any `Exception` anywhere in the `try` body lands in the `except` branch
(`retryWait`); the `except` branch sleeps and unconditionally re-enters the
`while True` loop at discovery. `streaming`/`ok` is one successful 5-second
liveness poll, which stays in streaming. -/
def supStep : SupState → StepResult → SupState
  | .discovering, .ok => .connecting
  | .connecting, .ok => .configuring
  | .configuring, .ok => .subscribing
  | .subscribing, .ok => .streaming
  | .streaming, .ok => .streaming
  | .discovering, .err => .retryWait
  | .connecting, .err => .retryWait
  | .configuring, .err => .retryWait
  | .subscribing, .err => .retryWait
  | .streaming, .err => .retryWait
  | .retryWait, _ => .discovering
  | .halted, _ => .halted

/-- The fixed backoff of the `except` branch: `await asyncio.sleep(5.0)`
(`src/main.py` line 123). -/
def retry_delay : ℕ := 5

/-- The fixed liveness-poll interval in streaming: `await asyncio.sleep(5)`
(`src/main.py` line 113). -/
def liveness_poll_interval : ℕ := 5

/-- Run the supervisor from a state through a sequence of operation outcomes. -/
def supRun (s : SupState) : List StepResult → SupState
  | [] => s
  | e :: es => supRun (supStep s e) es

/-- An event of the whole system: either the pending BLE operation of the
supervisor resolves, or the transport delivers a notification payload at some
wall-clock time (notifications arrive asynchronously while streaming). -/
inductive SysEvent
  | op : StepResult → SysEvent
  | notify : List ℕ → ℕ → SysEvent

/-- Combined state: the supervisor's control state and the metrics registry. -/
structure SysState where
  sup : SupState
  reg : Registry

/-- One step of the whole system. Supervisor transitions never touch the
registry (`main` never writes or clears any gauge — only `data_notify_handler`
does); a delivered notification is handled only while subscribed and streaming. -/
def sysStep (probe1 probe2 : String) (s : SysState) (e : SysEvent) : SysState :=
  match e with
  | .op r => { s with sup := supStep s.sup r }
  | .notify data now =>
      if s.sup = .streaming then
        { s with reg := data_notify_handler probe1 probe2 data now s.reg }
      else s

/-- An example registry with pre-existing gauge values and a pre-existing
timestamp, used as a concrete initial state in counterexamples and witnesses. -/
def regInit : Registry :=
  { temperature := fun l =>
      if l = "probe1" then some 5 else if l = "probe2" then some 7 else none
    last_received := some 50 }

/-- Evaluation lemma for the handler: with two distinct probe labels, it sets
the probe-1 child to the decode of `data[0:2]`, the probe-2 child to the decode
of `data[2:4]`, sets the timestamp, and touches no other label. -/
theorem data_notify_handler_eval (p1 p2 : String) (data : List ℕ) (now : ℕ)
    (reg : Registry) (hne : p1 ≠ p2) :
    (data_notify_handler p1 p2 data now reg).temperature p1
        = some (bytes_to_temperature (pySlice data 0 2)) ∧
    (data_notify_handler p1 p2 data now reg).temperature p2
        = some (bytes_to_temperature (pySlice data 2 4)) ∧
    (data_notify_handler p1 p2 data now reg).last_received = some now ∧
    ∀ l, l ≠ p1 → l ≠ p2 →
      (data_notify_handler p1 p2 data now reg).temperature l = reg.temperature l := by
  refine ⟨?_, ?_, rfl, ?_⟩
  · simp [data_notify_handler, gaugeSet, hne]
  · simp [data_notify_handler, gaugeSet]
  · intro l hl1 hl2
    simp [data_notify_handler, gaugeSet, hl1, hl2]

/-- C2: for every 2-byte input interpreted as an unsigned little-endian integer
v, the decoder returns v/10 when v is not 0xFFFF, and returns 0 when v is
0xFFFF. -/
theorem decoder_maps_le_value (b0 b1 : ℕ) (h0 : b0 < 256) (h1 : b1 < 256) :
    (b0 + 256 * b1 ≠ 0xffff →
      bytes_to_temperature [b0, b1] = ((b0 + 256 * b1 : ℕ) : ℚ) / 10) ∧
    (b0 + 256 * b1 = 0xffff → bytes_to_temperature [b0, b1] = 0) := by
  constructor
  · intro hne
    simp [bytes_to_temperature, intFromBytesLE, hne]
  · intro heq
    simp [bytes_to_temperature, intFromBytesLE, heq]

/-- Witness for C2 at the concrete bytes 01 00 (raw value 1, reading 0.1). -/
theorem decoder_maps_le_value_witness :
    (1 : ℕ) < 256 ∧ (0 : ℕ) < 256 ∧
      bytes_to_temperature [1, 0] = ((1 + 256 * 0 : ℕ) : ℚ) / 10 :=
  ⟨by decide, by decide,
    (decoder_maps_le_value 1 0 (by decide) (by decide)).1 (by decide)⟩

/-- C5: the decoder maps the sentinel bytes FF FF and the genuine reading 00 00
to the same output value 0, so an absent probe is indistinguishable from a true
0.0 degree reading in the exposed metric. -/
theorem sentinel_indistinguishable_from_zero :
    bytes_to_temperature [0xff, 0xff] = bytes_to_temperature [0x00, 0x00] ∧
    bytes_to_temperature [0xff, 0xff] = 0 := by
  constructor <;> norm_num [bytes_to_temperature, intFromBytesLE]

/-- C9: the decoder is pure and deterministic: its result does not depend on
the registry state, it returns the state unchanged, and a second invocation on
the same bytes (in the state the first invocation left behind) yields the same
result. -/
theorem decoder_pure (reg reg1 reg2 : Registry) (data : List ℕ) :
    (bytes_to_temperature_eff reg1 data).1 = (bytes_to_temperature_eff reg2 data).1 ∧
    (bytes_to_temperature_eff reg data).2 = reg ∧
    (bytes_to_temperature_eff ((bytes_to_temperature_eff reg data).2) data).1
        = (bytes_to_temperature_eff reg data).1 :=
  ⟨rfl, rfl, rfl⟩

/-- C10: the decoder is total over byte sequences of every length (it returns a
value for any input), the empty sequence decodes to 0, and on a short payload
(length at most 2) the handler feeds the decoder the empty window `data[2:4]`
and records 0 for probe 2. -/
theorem decoder_total_any_length (data : List ℕ) (p1 p2 : String) (now : ℕ)
    (reg : Registry) :
    (∃ q : ℚ, bytes_to_temperature data = q) ∧
    bytes_to_temperature [] = 0 ∧
    (data.length ≤ 2 →
      pySlice data 2 4 = [] ∧
      (data_notify_handler p1 p2 data now reg).temperature p2 = some 0) := by
  refine ⟨⟨bytes_to_temperature data, rfl⟩,
    by norm_num [bytes_to_temperature, intFromBytesLE], ?_⟩
  intro h
  have h4 : pySlice data 2 4 = [] := by
    unfold pySlice
    rw [List.take_of_length_le (by omega), List.drop_eq_nil_of_le (by omega)]
  refine ⟨h4, ?_⟩
  simp [data_notify_handler, gaugeSet, h4, bytes_to_temperature, intFromBytesLE]

/-- Witness for C10 at the concrete 1-byte payload 01. -/
theorem decoder_total_any_length_witness :
    bytes_to_temperature [] = 0 ∧
    ([1] : List ℕ).length ≤ 2 ∧
    (data_notify_handler "probe1" "probe2" [1] 9 regInit).temperature "probe2"
        = some 0 :=
  ⟨(decoder_total_any_length [] "probe1" "probe2" 0 regInit).2.1,
   by decide,
   ((decoder_total_any_length [1] "probe1" "probe2" 9 regInit).2.2 (by decide)).2⟩

/-- C1 counterexample: the claim that a payload of length other than 4 leaves
every existing registry value unchanged is false. At the concrete 2-byte
payload 01 00, delivered at time 100 to a registry whose probe-1 gauge is 5 and
whose timestamp is 50, the handler overwrites both: the source performs no
length check. -/
theorem malformed_payload_claim_counterexample :
    ([1, 0] : List ℕ).length ≠ 4 ∧
    (data_notify_handler "probe1" "probe2" [1, 0] 100 regInit).last_received
        ≠ regInit.last_received ∧
    (data_notify_handler "probe1" "probe2" [1, 0] 100 regInit).temperature "probe1"
        ≠ regInit.temperature "probe1" := by
  refine ⟨by decide, by simp [data_notify_handler, regInit], ?_⟩
  have hps : ("probe1" : String) ≠ "probe2" := by decide
  rw [(data_notify_handler_eval "probe1" "probe2" [1, 0] 100 regInit hps).1]
  norm_num [bytes_to_temperature, intFromBytesLE, pySlice, regInit]

/-- C1 amended: for every notification payload whose length is not 4, the
handler does not raise past its boundary (it is total), but it does not leave
the registry unchanged: it overwrites the probe-1 gauge with the decode of
`data[0:2]`, the probe-2 gauge with the decode of `data[2:4]` (short windows
truncate, a missing window decodes as the empty sequence), sets the timestamp
to the current time, and only non-probe labels keep their previous values. -/
theorem malformed_payload_still_updates (p1 p2 : String) (data : List ℕ)
    (now : ℕ) (reg : Registry) (hlen : data.length ≠ 4) (hne : p1 ≠ p2) :
    (data_notify_handler p1 p2 data now reg).temperature p1
        = some (bytes_to_temperature (pySlice data 0 2)) ∧
    (data_notify_handler p1 p2 data now reg).temperature p2
        = some (bytes_to_temperature (pySlice data 2 4)) ∧
    (data_notify_handler p1 p2 data now reg).last_received = some now ∧
    ∀ l, l ≠ p1 → l ≠ p2 →
      (data_notify_handler p1 p2 data now reg).temperature l = reg.temperature l :=
  data_notify_handler_eval p1 p2 data now reg hne

/-- Witness for amended C1 at the concrete 2-byte payload 01 00. -/
theorem malformed_payload_still_updates_witness :
    ([1, 0] : List ℕ).length ≠ 4 ∧
    (data_notify_handler "probe1" "probe2" [1, 0] 100 regInit).temperature "probe1"
        = some (bytes_to_temperature (pySlice [1, 0] 0 2)) ∧
    (data_notify_handler "probe1" "probe2" [1, 0] 100 regInit).temperature "probe2"
        = some (bytes_to_temperature (pySlice [1, 0] 2 4)) ∧
    (data_notify_handler "probe1" "probe2" [1, 0] 100 regInit).last_received
        = some 100 ∧
    (data_notify_handler "probe1" "probe2" [1, 0] 100 regInit).temperature "other"
        = regInit.temperature "other" :=
  ⟨by decide,
   (malformed_payload_still_updates "probe1" "probe2" [1, 0] 100 regInit
      (by decide) (by decide)).1,
   (malformed_payload_still_updates "probe1" "probe2" [1, 0] 100 regInit
      (by decide) (by decide)).2.1,
   (malformed_payload_still_updates "probe1" "probe2" [1, 0] 100 regInit
      (by decide) (by decide)).2.2.1,
   (malformed_payload_still_updates "probe1" "probe2" [1, 0] 100 regInit
      (by decide) (by decide)).2.2.2 "other" (by decide) (by decide)⟩

/-- C3: after handling a 4-byte payload, the registry holds the decode of
`b[0:2]` under the probe-1 label and the decode of `b[2:4]` under the probe-2
label (the two configured labels being distinct), the timestamp is set to the
current time, and a later call at a strictly later time advances it. -/
theorem handler_records_decoded_values (p1 p2 : String) (b : List ℕ)
    (t1 t2 : ℕ) (reg : Registry) (hlen : b.length = 4) (hne : p1 ≠ p2) :
    (data_notify_handler p1 p2 b t1 reg).temperature p1
        = some (bytes_to_temperature (pySlice b 0 2)) ∧
    (data_notify_handler p1 p2 b t1 reg).temperature p2
        = some (bytes_to_temperature (pySlice b 2 4)) ∧
    (data_notify_handler p1 p2 b t1 reg).last_received = some t1 ∧
    (t1 < t2 → ∀ b2 : List ℕ,
      (data_notify_handler p1 p2 b2 t2 (data_notify_handler p1 p2 b t1 reg)).last_received
          = some t2 ∧ t1 < t2) := by
  obtain ⟨e1, e2, e3, _⟩ := data_notify_handler_eval p1 p2 b t1 reg hne
  exact ⟨e1, e2, e3, fun hlt b2 => ⟨rfl, hlt⟩⟩

/-- Witness for C3 at the payload 01 00 02 00, first call at time 10, second at
time 20. -/
theorem handler_records_decoded_values_witness :
    (data_notify_handler "probe1" "probe2" [1, 0, 2, 0] 10 regInit).temperature "probe1"
        = some (bytes_to_temperature (pySlice [1, 0, 2, 0] 0 2)) ∧
    (data_notify_handler "probe1" "probe2" [1, 0, 2, 0] 10 regInit).temperature "probe2"
        = some (bytes_to_temperature (pySlice [1, 0, 2, 0] 2 4)) ∧
    (data_notify_handler "probe1" "probe2" [1, 0, 2, 0] 10 regInit).last_received
        = some 10 ∧
    (data_notify_handler "probe1" "probe2" [3, 0, 4, 0] 20
        (data_notify_handler "probe1" "probe2" [1, 0, 2, 0] 10 regInit)).last_received
        = some 20 ∧
    (10 : ℕ) < 20 :=
  ⟨(handler_records_decoded_values "probe1" "probe2" [1, 0, 2, 0] 10 20 regInit
      (by decide) (by decide)).1,
   (handler_records_decoded_values "probe1" "probe2" [1, 0, 2, 0] 10 20 regInit
      (by decide) (by decide)).2.1,
   (handler_records_decoded_values "probe1" "probe2" [1, 0, 2, 0] 10 20 regInit
      (by decide) (by decide)).2.2.1,
   (handler_records_decoded_values "probe1" "probe2" [1, 0, 2, 0] 10 20 regInit
      (by decide) (by decide)).2.2.2 (by decide) [3, 0, 4, 0]⟩

/-- A live supervisor state stays live after one step: no transition of the
loop reaches the added terminal state. -/
theorem supStep_preserves_live (s : SupState) (e : StepResult)
    (h : s ≠ SupState.halted) : supStep s e ≠ SupState.halted := by
  cases s <;> cases e <;> first
  | exact absurd rfl h
  | decide

/-- Running the supervisor from any live state never terminates. -/
theorem supRun_preserves_live (es : List StepResult) (s : SupState)
    (h : s ≠ SupState.halted) : supRun s es ≠ SupState.halted := by
  induction es generalizing s with
  | nil => exact h
  | cons e es ih => exact ih (supStep s e) (supStep_preserves_live s e h)

/-- C4: every failure outcome at any phase of the
discover/connect/configure/subscribe/stream path lands in the retry branch,
the retry branch always returns to discovering after the fixed 5-second delay,
and no sequence of operation outcomes ever terminates the loop. -/
theorem supervisor_loop_self_heals (es : List StepResult) :
    supRun SupState.discovering es ≠ SupState.halted ∧
    supStep SupState.discovering StepResult.err = SupState.retryWait ∧
    supStep SupState.connecting StepResult.err = SupState.retryWait ∧
    supStep SupState.configuring StepResult.err = SupState.retryWait ∧
    supStep SupState.subscribing StepResult.err = SupState.retryWait ∧
    supStep SupState.streaming StepResult.err = SupState.retryWait ∧
    (∀ e, supStep SupState.retryWait e = SupState.discovering) ∧
    retry_delay = 5 :=
  ⟨supRun_preserves_live es SupState.discovering (by decide),
   rfl, rfl, rfl, rfl, rfl, fun e => by cases e <;> rfl, rfl⟩

/-- Witness for C4 on a concrete outcome sequence: a scan failure, a retry, a
full reconnect, and a disconnect never halt the loop. -/
theorem supervisor_loop_self_heals_witness :
    supRun SupState.discovering
      [StepResult.err, StepResult.ok, StepResult.ok, StepResult.ok,
       StepResult.ok, StepResult.ok, StepResult.err] ≠ SupState.halted :=
  (supervisor_loop_self_heals
    [StepResult.err, StepResult.ok, StepResult.ok, StepResult.ok,
     StepResult.ok, StepResult.ok, StepResult.err]).1

/-- C6: in the session-setup trace of one connection cycle, the
Celsius-selection write is at position 0, the streaming-enable write at
position 1, and the notification subscription at position 2 of the three
actions, so each strictly precedes the next. -/
theorem session_setup_order :
    sessionSetupActions[0]? = some (.write settings_characteristic use_celsius) ∧
    sessionSetupActions[1]? = some (.write settings_characteristic enable_realtime) ∧
    sessionSetupActions[2]? = some (.startNotify data_characteristic) ∧
    sessionSetupActions.length = 3 :=
  ⟨rfl, rfl, rfl, rfl⟩

/-- C7: when the transport reports not-connected while streaming, the system
enters the retry branch (the Disconnected/Failed recovery state) and then
returns to discovering, and the metrics registry is bit-for-bit unchanged
across both transitions: no gauge is cleared or reset on disconnect. -/
theorem disconnect_preserves_registry (p1 p2 : String) (s : SysState)
    (h : s.sup = SupState.streaming) :
    (sysStep p1 p2 s (.op .err)).sup = SupState.retryWait ∧
    (sysStep p1 p2 s (.op .err)).reg = s.reg ∧
    (sysStep p1 p2 (sysStep p1 p2 s (.op .err)) (.op .ok)).sup
        = SupState.discovering ∧
    (sysStep p1 p2 (sysStep p1 p2 s (.op .err)) (.op .ok)).reg = s.reg := by
  refine ⟨?_, rfl, ?_, rfl⟩
  · simp [sysStep, h, supStep]
  · simp [sysStep, h, supStep]

/-- Witness for C7 at a concrete streaming state holding recorded values. -/
theorem disconnect_preserves_registry_witness :
    (sysStep "probe1" "probe2" ⟨SupState.streaming, regInit⟩ (.op .err)).sup
        = SupState.retryWait ∧
    (sysStep "probe1" "probe2" ⟨SupState.streaming, regInit⟩ (.op .err)).reg
        = regInit ∧
    (sysStep "probe1" "probe2"
        (sysStep "probe1" "probe2" ⟨SupState.streaming, regInit⟩ (.op .err))
        (.op .ok)).sup = SupState.discovering ∧
    (sysStep "probe1" "probe2"
        (sysStep "probe1" "probe2" ⟨SupState.streaming, regInit⟩ (.op .err))
        (.op .ok)).reg = regInit :=
  disconnect_preserves_registry "probe1" "probe2" ⟨SupState.streaming, regInit⟩ rfl

/-- C8: the frames written to the settings characteristic during session setup
are exactly 02 00 00 00 00 00 (select Celsius) followed by
0B 01 00 00 00 00 (enable real-time notification mode). -/
theorem settings_frames_exact :
    writesTo settings_characteristic sessionSetupActions =
      [[0x02, 0x00, 0x00, 0x00, 0x00, 0x00],
       [0x0B, 0x01, 0x00, 0x00, 0x00, 0x00]] := by
  decide

end IbtExporter
